import Mathlib

/-!
Shallow embedding of `bimmer_connected/api/client.py`: the `MyBMWClient`
configuration layer (default header generation, construction-time resolution
of base URL / headers / event hooks) and its two response hooks
(`log_response` and `raise_for_status_event_handler`).

External collaborators that the file imports from elsewhere in the package
(`get_server_url`, `get_app_version`, the `X_USER_AGENT` template,
`get_correlation_id`, `USER_AGENT`, `HTTPX_TIMEOUT`) are kept abstract as an
`Externals` record, matching the spec's treatment of them as opaque
dependencies consumed by, not implemented in, this layer.
-/

namespace BimmerClient

/-- Python truthiness of an `Optional[bool]` field: `None` and `False` are
falsy, only `True` is truthy. -/
def pyTruthyOptBool : Option Bool → Bool
  | some true => true
  | _ => false

/-- Python `a or b` where `a` is an optional string (`kwargs.get(...)`):
`None` and the empty string `""` are falsy and select `b`. -/
def pyOrString : Option String → String → String
  | none, d => d
  | some s, d => if s = "" then d else s

/-- Python `a or b` where `a` is an optional header mapping: `None` and the
empty mapping `{}` are falsy and select `b`. -/
def pyOrHeaders : Option (List (String × String)) → List (String × String) →
    List (String × String)
  | none, d => d
  | some h, d => if h = [] then d else h

/-- Lookup in a Python dict modelled as an insertion-ordered association
list: a later binding of the same key overrides an earlier one, so the
last matching entry wins. -/
def pyDictGet : List (String × String) → String → Option String
  | [], _ => none
  | (k, v) :: rest, key =>
    match pyDictGet rest key with
    | some w => some w
    | none => if k = key then some v else none

/-- Python `sep.join(l)`. -/
def pyJoin (sep : String) : List String → String
  | [] => ""
  | [x] => x
  | x :: y :: xs => x ++ sep ++ pyJoin sep (y :: xs)

/-- `needle` is a leading segment of `hay` (on character lists). -/
def startsWithChars : List Char → List Char → Bool
  | [], _ => true
  | _ :: _, [] => false
  | a :: as, b :: bs => a == b && startsWithChars as bs

/-- `needle` occurs inside `hay`: it leads some suffix of `hay`. -/
def listContainsSub (needle : List Char) : List Char → Bool
  | [] => startsWithChars needle []
  | c :: t => startsWithChars needle (c :: t) || listContainsSub needle t

/-- Python `needle in hay` substring test. -/
def strContains (hay needle : String) : Bool :=
  listContainsSub needle.data hay.data

/-- Python `s.split(sep)` for a one-character separator, on character
lists: splitting the empty string yields `[[]]`, and every separator
occurrence opens a new (possibly empty) segment. -/
def splitOnChar (sep : Char) : List Char → List (List Char)
  | [] => [[]]
  | c :: t =>
    match splitOnChar sep t with
    | [] => [[c]]
    | h :: rest => if c == sep then [] :: h :: rest else (c :: h) :: rest

/-- Python `s.split("/")`. -/
def pySplitSlash (s : String) : List String :=
  (splitOnChar '/' s.data).map String.mk

/-- `re.sub(r"\d", "0", s)`: every decimal digit character replaced by `'0'`. -/
def zeroDigits (s : String) : String :=
  String.mk (s.data.map fun c => if c.isDigit then '0' else c)

/-- A region identifier; `value` mirrors the Python enum member's `.value`
string used in headers. -/
structure Region where
  value : String
deriving DecidableEq

/-- The authentication handle, reduced to the only attribute this layer
reads from it: its `region`. -/
structure MyBMWAuthentication where
  region : Region
deriving DecidableEq

/-- Observer GPS position; stored in the configuration and passed through
unused by this layer. -/
structure GPSPosition where
  latitude : Int
  longitude : Int
deriving DecidableEq

/-- `MyBMWClientConfiguration` dataclass: global settings for `MyBMWClient`.
`use_metric_units : Optional[bool]` defaults to `True`. -/
structure MyBMWClientConfiguration where
  authentication : MyBMWAuthentication
  log_response_path : Option String := none
  observer_position : Option GPSPosition := none
  use_metric_units : Option Bool := some true
deriving DecidableEq

/-- Modelled from the spec: `CarBrands` lives in `bimmer_connected.const`
(not under `src/`); the spec describes "a small fixed set of vendor
sub-brands" whose identifiers appear in the `x-user-agent` header, with a
primary brand `"bmw"` (and sub-brand `"mini"`). -/
inductive CarBrands
  | bmw
  | mini
deriving DecidableEq

/-- The string identifier of a brand (the Python enum member's `.value`). -/
def CarBrands.value : CarBrands → String
  | .bmw => "bmw"
  | .mini => "mini"

/-- Iteration order of the `CarBrands` enumeration. -/
def CarBrands.all : List CarBrands := [.bmw, .mini]

/-- The opaque external collaborators imported by `client.py` from other
modules of the package (region/server lookup, app-version lookup, the
`X_USER_AGENT` template, the correlation-id generator, the `USER_AGENT`
constant and the `HTTPX_TIMEOUT` constant), kept abstract per the spec. -/
structure Externals where
  get_server_url : Region → String
  get_app_version : Region → String
  x_user_agent_format : CarBrands → String → String → String
  get_correlation_id : List (String × String)
  user_agent : String
  httpx_timeout : Nat

/-- `MyBMWClient.generate_default_header`: the Python dict literal, in
insertion order, with `**get_correlation_id()` spliced between the
`x-user-agent` entry and the `bmw-units-preferences` entry. -/
def generate_default_header (ext : Externals) (config : MyBMWClientConfiguration)
    (brand : Option CarBrands) : List (String × String) :=
  [("accept", "application/json"),
   ("accept-language", "en"),
   ("user-agent", ext.user_agent),
   ("x-user-agent",
     ext.x_user_agent_format (brand.getD CarBrands.bmw)
       (ext.get_app_version config.authentication.region)
       config.authentication.region.value)]
  ++ ext.get_correlation_id
  ++ [("bmw-units-preferences",
        if pyTruthyOptBool config.use_metric_units then "d=KM;v=L" else "d=MI;v=G"),
      ("24-hour-format", "true")]

/-- The response hooks that can appear in the client's `event_hooks["response"]`
list: opaque caller-supplied hooks, the logging hook, and the error hook. -/
inductive ResponseHook
  | caller (i : Nat)
  | log_response
  | raise_for_status_event_handler
deriving DecidableEq

/-- The keyword arguments of `MyBMWClient.__init__` that its construction
logic inspects: an optional `base_url`, optional `headers`, and any
caller-supplied `event_hooks["response"]` list. -/
structure InitKwargs where
  base_url : Option String := none
  headers : Option (List (String × String)) := none
  response_hooks : List ResponseHook := []
deriving DecidableEq

/-- The effective client settings produced by `MyBMWClient.__init__` and
handed to the underlying `httpx.AsyncClient`. -/
structure ClientInit where
  auth : MyBMWAuthentication
  timeout : Nat
  base_url : String
  headers : List (String × String)
  response_hooks : List ResponseHook
deriving DecidableEq

/-- `MyBMWClient.__init__`: binds the authentication handle, sets the fixed
timeout, resolves `base_url` and `headers` via Python `or` (falsy values
select the generated default), and appends the logging hook (only when
`config.log_response_path` is truthy) and then the error hook to the
caller-supplied response hooks. -/
def MyBMWClient_init (ext : Externals) (config : MyBMWClientConfiguration)
    (brand : Option CarBrands) (kwargs : InitKwargs) : ClientInit :=
  let resolved_base_url :=
    pyOrString kwargs.base_url (ext.get_server_url config.authentication.region)
  let resolved_headers :=
    pyOrHeaders kwargs.headers (generate_default_header ext config brand)
  let hooks0 := kwargs.response_hooks
  let hooks1 :=
    if config.log_response_path.isSome then hooks0 ++ [ResponseHook.log_response]
    else hooks0
  let hooks2 := hooks1 ++ [ResponseHook.raise_for_status_event_handler]
  { auth := config.authentication
    timeout := ext.httpx_timeout
    base_url := resolved_base_url
    headers := resolved_headers
    response_hooks := hooks2 }

/-- A request as seen by the response hooks: its URL path and its headers
(for the `x-user-agent` lookup). -/
structure Request where
  url_path : String
  headers : List (String × String)
deriving DecidableEq

/-- A response as seen by the response hooks: status code, originating
request, and body bytes (what `aread` returns). -/
structure Response where
  status_code : Nat
  request : Request
  body : List Nat
deriving DecidableEq

/-- httpx `Response.is_error`: the status code is in 4xx/5xx (400–599). -/
def httpx_is_error (s : Nat) : Bool :=
  decide (400 ≤ s) && decide (s ≤ 599)

/-- httpx `Response.raise_for_status`: returns normally on a 2xx success,
otherwise raises an `HTTPStatusError` carrying the response's status code. -/
def httpx_raise_for_status (s : Nat) : Option Nat :=
  if 200 ≤ s ∧ s ≤ 299 then none else some s

/-- Outcome of running `raise_for_status_event_handler` on one response:
whether the hook read the full body, and the status code of the raised
`HTTPStatusError`, if any. -/
structure ErrorHookOutcome where
  body_read : Bool
  raised : Option Nat
deriving DecidableEq

/-- `raise_for_status_event_handler`: if `response.is_error` and the status
code is not in `[401, 429]`, read the full body and call
`response.raise_for_status()`; otherwise do nothing. -/
def raise_for_status_event_handler (r : Response) : ErrorHookOutcome :=
  if httpx_is_error r.status_code
      && !(decide (r.status_code = 401) || decide (r.status_code = 429)) then
    { body_read := true, raised := httpx_raise_for_status r.status_code }
  else
    { body_read := false, raised := none }

/-- The brand identifiers found as substrings of the request's
`x-user-agent` header, in `CarBrands` enumeration order
(`[x for x in [b.value for b in CarBrands] if x in ...]`). -/
def matched_brands (x_user_agent : String) : List String :=
  (CarBrands.all.map CarBrands.value).filter fun x => strContains x_user_agent x

/-- The `base_file_name` computed inside `log_response`:
`"_".join([response.url.path.split("/")[-1]] + brand)` with every decimal
digit then replaced by `0`. -/
def log_response_base_file_name (url_path x_user_agent : String) : String :=
  zeroDigits (pyJoin "_" (((pySplitSlash url_path).getLastD "") :: matched_brands x_user_agent))

/-- Exceptions that can escape a response hook: an `HTTPStatusError` from
`raise_for_status`, or some other error (e.g. an `OSError` from the
file-writing primitive). -/
inductive PyExc
  | httpStatusError (code : Nat)
  | oserror (msg : String)
deriving DecidableEq

/-- `log_response`: read the body, compute the file name, and hand the body
to the file-writing primitive (`log_to_to_file`, abstracted as `write`,
taking content, directory and file name). There is no `try/except`: a
failure of `write` is the result of the hook. -/
def log_response (write : List Nat → String → String → Except PyExc Unit)
    (config : MyBMWClientConfiguration) (r : Response) : Except PyExc Unit :=
  let content := r.body
  let name := log_response_base_file_name r.request.url_path
    ((pyDictGet r.request.headers "x-user-agent").getD "")
  write content (config.log_response_path.getD "") name

/-- Run one registered response hook. Caller-supplied hooks are opaque and
modelled as no-ops; the error hook raises exactly when
`raise_for_status_event_handler` does. -/
def run_hook (write : List Nat → String → String → Except PyExc Unit)
    (config : MyBMWClientConfiguration) (r : Response) :
    ResponseHook → Except PyExc Unit
  | ResponseHook.caller _ => Except.ok ()
  | ResponseHook.log_response => log_response write config r
  | ResponseHook.raise_for_status_event_handler =>
    match (raise_for_status_event_handler r).raised with
    | some c => Except.error (PyExc.httpStatusError c)
    | none => Except.ok ()

/-- Run the registered response hooks in order, as httpx does on the
response path: the first exception aborts the pipeline and the response is
not returned to the caller. -/
def run_response_hooks (write : List Nat → String → String → Except PyExc Unit)
    (config : MyBMWClientConfiguration) (hooks : List ResponseHook)
    (r : Response) : Except PyExc Response :=
  match hooks with
  | [] => Except.ok r
  | h :: rest =>
    match run_hook write config r h with
    | Except.ok _ => run_response_hooks write config rest r
    | Except.error e => Except.error e

/-- A flat file system: an association list from file path to contents. -/
def FileSystem := List (String × List Nat)

/-- Overwrite-write: any previous entry for `path` is removed and the new
contents stored. -/
def fsWrite (fs : FileSystem) (path : String) (content : List Nat) : FileSystem :=
  (fs.filter fun e => e.1 ≠ path) ++ [(path, content)]

/-- Modelled from the spec: `log_to_to_file` (`bimmer_connected.api.utils`,
not under `src/`) writes the raw body bytes to
`<logResponsePath>/<base_file_name>` with overwrite semantics. -/
def log_to_to_file (fs : FileSystem) (content : List Nat)
    (logfile_path base_file_name : String) : FileSystem :=
  fsWrite fs (logfile_path ++ "/" ++ base_file_name) content

/-- The spec's file-naming formula, stated from its words:
`<lastPathSegment>[_<brand>]` — the last path segment of the request URL,
each known brand identifier found in the `x-user-agent` appended with an
underscore, and every decimal digit of the whole composed name replaced
by `0`. -/
def spec_log_file_name (url_path x_user_agent : String) : String :=
  zeroDigits ((matched_brands x_user_agent).foldl
    (fun acc b => acc ++ "_" ++ b) ((pySplitSlash url_path).getLastD ""))

/-! ### Helper lemmas -/

/-- Last-match dict lookup distributes over append: the right part wins. -/
theorem pyDictGet_append (l1 l2 : List (String × String)) (k : String) :
    pyDictGet (l1 ++ l2) k =
      match pyDictGet l2 k with
      | some w => some w
      | none => pyDictGet l1 k := by
  induction l1 with
  | nil => cases h : pyDictGet l2 k <;> simp [pyDictGet, h]
  | cons p l ih =>
    cases p with
    | mk k1 v1 =>
      cases h : pyDictGet l2 k <;> simp [pyDictGet, ih, h]

/-- Lookup misses a list none of whose keys equal the query. -/
theorem pyDictGet_eq_none (l : List (String × String)) (k : String)
    (h : ∀ p ∈ l, p.1 ≠ k) : pyDictGet l k = none := by
  induction l with
  | nil => rfl
  | cons p t ih =>
    cases p with
    | mk k1 v1 =>
      have h1 : k1 ≠ k := h (k1, v1) (List.mem_cons_self _ _)
      have ht : pyDictGet t k = none :=
        ih fun q hq => h q (List.mem_cons_of_mem _ hq)
      simp [pyDictGet, ht, h1]

/-! ### Claims -/

/-- C1: for every response passing through `raise_for_status_event_handler`,
an `HTTPStatusError` is raised if and only if the status is a 4xx/5xx error
and the code is neither 401 nor 429 (so 2xx, 3xx, 401 and 429 pass through
with nothing raised); when it raises, the full body has been read first and
the error carries the response's status code. -/
theorem raise_for_status_hook_contract (s : Nat) (req : Request) (body : List Nat) :
    ((raise_for_status_event_handler ⟨s, req, body⟩).raised =
      if 400 ≤ s ∧ s ≤ 599 ∧ s ≠ 401 ∧ s ≠ 429 then some s else none) ∧
    ((raise_for_status_event_handler ⟨s, req, body⟩).body_read =
      ((raise_for_status_event_handler ⟨s, req, body⟩).raised).isSome) := by
  unfold raise_for_status_event_handler httpx_is_error httpx_raise_for_status
  by_cases h4 : 400 ≤ s <;> by_cases h5 : s ≤ 599 <;>
    by_cases h1 : s = 401 <;> by_cases h2 : s = 429 <;>
      (simp [h4, h5, h1, h2]; try omega)

/-- C2: for every configuration and both `use_metric_units` values
`some true` / `some false`, the generated default header maps
`bmw-units-preferences` to exactly `d=KM;v=L` resp. `d=MI;v=G`. -/
theorem units_preferences_header_value (ext : Externals)
    (auth : MyBMWAuthentication) (lp : Option String) (op : Option GPSPosition)
    (brand : Option CarBrands) :
    pyDictGet (generate_default_header ext ⟨auth, lp, op, some true⟩ brand)
        "bmw-units-preferences" = some "d=KM;v=L" ∧
    pyDictGet (generate_default_header ext ⟨auth, lp, op, some false⟩ brand)
        "bmw-units-preferences" = some "d=MI;v=G" := by
  simp only [generate_default_header, pyDictGet_append]
  simp [pyDictGet, pyTruthyOptBool]

/-- C10: the `bmw-units-preferences` value depends only on Python truthiness
of `use_metric_units`: with the field explicitly `None`, the generated value
is `d=MI;v=G`, identical to the value generated for `False`, not the
metric value of the documented default `True`. -/
theorem units_preferences_none_is_imperial (ext : Externals)
    (auth : MyBMWAuthentication) (lp : Option String) (op : Option GPSPosition)
    (brand : Option CarBrands) :
    pyDictGet (generate_default_header ext ⟨auth, lp, op, none⟩ brand)
        "bmw-units-preferences" = some "d=MI;v=G" ∧
    pyDictGet (generate_default_header ext ⟨auth, lp, op, none⟩ brand)
        "bmw-units-preferences" =
      pyDictGet (generate_default_header ext ⟨auth, lp, op, some false⟩ brand)
        "bmw-units-preferences" := by
  simp only [generate_default_header, pyDictGet_append]
  simp [pyDictGet, pyTruthyOptBool]

/-- C3: for every brand tag and region, the generated `x-user-agent` header
value equals the template applied to the brand (defaulting to the primary
brand `bmw` when none is supplied), the externally resolved app version for
the region, and the region identifier; regeneration with the same inputs
yields an identical value (the generator is a pure function). The
hypothesis records that the opaque correlation-id entries do not use the
key `x-user-agent` (their keys are correlation-tracing headers). -/
theorem x_user_agent_header_value (ext : Externals)
    (config : MyBMWClientConfiguration) (brand : Option CarBrands)
    (h : ∀ p ∈ ext.get_correlation_id, p.1 ≠ "x-user-agent") :
    pyDictGet (generate_default_header ext config brand) "x-user-agent" =
      some (ext.x_user_agent_format (brand.getD CarBrands.bmw)
        (ext.get_app_version config.authentication.region)
        config.authentication.region.value) ∧
    generate_default_header ext config brand =
      generate_default_header ext config brand := by
  have hc : pyDictGet ext.get_correlation_id "x-user-agent" = none :=
    pyDictGet_eq_none _ _ h
  refine ⟨?_, rfl⟩
  simp only [generate_default_header, pyDictGet_append]
  simp [pyDictGet, hc]

/-- Concrete externals used to instantiate hypotheses in witnesses. -/
def extW : Externals where
  get_server_url := fun _ => "https://cocoapi.example"
  get_app_version := fun r => "9.9(" ++ r.value ++ ")"
  x_user_agent_format := fun b a reg => "android;" ++ b.value ++ ";" ++ a ++ ";" ++ reg
  get_correlation_id := [("x-correlation-id", "cid-1")]
  user_agent := "Dart/3.3 (dart:io)"
  httpx_timeout := 100

/-- A concrete configuration for witnesses: region "row", defaults. -/
def cfgW : MyBMWClientConfiguration := { authentication := ⟨⟨"row"⟩⟩ }

/-- Witness for C3 at concrete externals, configuration and brand. -/
theorem x_user_agent_header_value_witness :
    pyDictGet (generate_default_header extW cfgW (some CarBrands.mini)) "x-user-agent" =
      some (extW.x_user_agent_format ((some CarBrands.mini).getD CarBrands.bmw)
        (extW.get_app_version cfgW.authentication.region)
        cfgW.authentication.region.value) ∧
    generate_default_header extW cfgW (some CarBrands.mini) =
      generate_default_header extW cfgW (some CarBrands.mini) :=
  x_user_agent_header_value extW cfgW (some CarBrands.mini) (by decide)

/-- C7: the hooks registered by construction are appended after any
caller-supplied response hooks, in deterministic order: the logging hook
first and only when `log_response_path` is set, the error hook last and
unconditionally. -/
theorem response_hooks_registration_order (ext : Externals)
    (config : MyBMWClientConfiguration) (brand : Option CarBrands)
    (kwargs : InitKwargs) :
    (MyBMWClient_init ext config brand kwargs).response_hooks =
      kwargs.response_hooks ++
        (if config.log_response_path.isSome then [ResponseHook.log_response] else []) ++
        [ResponseHook.raise_for_status_event_handler] ∧
    (MyBMWClient_init ext config brand kwargs).response_hooks.getLast? =
      some ResponseHook.raise_for_status_event_handler := by
  unfold MyBMWClient_init
  by_cases hp : config.log_response_path.isSome <;>
    simp [hp, List.getLast?_append_cons]

/-- C4 counterexample: the caller supplies the header mapping `{}` (an
explicit, empty mapping), yet construction does not use it verbatim: the
resolved headers are the full generated default mapping, which is not the
empty mapping. Python `or` treats the supplied `{}` as falsy. -/
theorem headers_empty_mapping_counterexample :
    (MyBMWClient_init extW cfgW none { headers := some [] }).headers =
      generate_default_header extW cfgW none ∧
    (MyBMWClient_init extW cfgW none { headers := some [] }).headers ≠ [] := by
  constructor
  · rfl
  · decide

/-- C4 amended: header resolution is all-or-nothing up to Python
truthiness: a supplied non-empty header mapping is used verbatim with no
generated default merged in; when no mapping is supplied — or the supplied
mapping is empty, which `or` treats like absence — the full generated
default mapping is used. -/
theorem headers_all_or_nothing (ext : Externals)
    (config : MyBMWClientConfiguration) (brand : Option CarBrands)
    (kwargs : InitKwargs) :
    (∀ hs, kwargs.headers = some hs → hs ≠ [] →
      (MyBMWClient_init ext config brand kwargs).headers = hs) ∧
    (kwargs.headers = none ∨ kwargs.headers = some [] →
      (MyBMWClient_init ext config brand kwargs).headers =
        generate_default_header ext config brand) := by
  constructor
  · intro hs hsome hne
    simp [MyBMWClient_init, pyOrHeaders, hsome, hne]
  · rintro (hnone | hempty)
    · simp [MyBMWClient_init, pyOrHeaders, hnone]
    · simp [MyBMWClient_init, pyOrHeaders, hempty]

/-- Witness for C4's amended theorem at a concrete non-empty mapping. -/
theorem headers_all_or_nothing_witness :
    (MyBMWClient_init extW cfgW none { headers := some [("accept", "text/plain")] }).headers =
      [("accept", "text/plain")] :=
  (headers_all_or_nothing extW cfgW none _).1 [("accept", "text/plain")] rfl (by decide)

/-- C9 counterexample: the caller supplies the base URL `""`, yet the
resolved base URL is the region lookup's result, not the supplied value.
Python `or` treats the supplied empty string as falsy. -/
theorem base_url_empty_string_counterexample :
    (MyBMWClient_init extW cfgW none { base_url := some "" }).base_url =
      extW.get_server_url cfgW.authentication.region ∧
    (MyBMWClient_init extW cfgW none { base_url := some "" }).base_url ≠ "" := by
  constructor
  · rfl
  · decide

/-- C9 amended: the client's base URL equals a supplied non-empty base URL;
when none is supplied — or the supplied string is empty, which `or` treats
like absence — it equals the external region-to-URL lookup applied to the
authentication handle's region. -/
theorem base_url_resolution (ext : Externals)
    (config : MyBMWClientConfiguration) (brand : Option CarBrands)
    (kwargs : InitKwargs) :
    (∀ s, kwargs.base_url = some s → s ≠ "" →
      (MyBMWClient_init ext config brand kwargs).base_url = s) ∧
    (kwargs.base_url = none ∨ kwargs.base_url = some "" →
      (MyBMWClient_init ext config brand kwargs).base_url =
        ext.get_server_url config.authentication.region) := by
  constructor
  · intro s hsome hne
    simp [MyBMWClient_init, pyOrString, hsome, hne]
  · rintro (hnone | hempty)
    · simp [MyBMWClient_init, pyOrString, hnone]
    · simp [MyBMWClient_init, pyOrString, hempty]

/-- Witness for C9's amended theorem at a concrete non-empty base URL. -/
theorem base_url_resolution_witness :
    (MyBMWClient_init extW cfgW none { base_url := some "https://b" }).base_url =
      "https://b" :=
  (base_url_resolution extW cfgW none _).1 "https://b" rfl (by decide)

/-- Folding the spec's "append `_brand`" step over a list commutes with a
fixed left prefix, by associativity of string append. -/
theorem foldl_underscore (l : List String) (x y : String) :
    l.foldl (fun acc b => acc ++ "_" ++ b) (x ++ "_" ++ y) =
      x ++ "_" ++ l.foldl (fun acc b => acc ++ "_" ++ b) y := by
  induction l generalizing y with
  | nil => rfl
  | cons z t ih =>
    simp only [List.foldl_cons]
    rw [show x ++ "_" ++ y ++ "_" ++ z = x ++ "_" ++ (y ++ "_" ++ z) by
      simp [String.append_assoc]]
    exact ih (y ++ "_" ++ z)

/-- `"_".join(x :: l)` equals the spec's left fold appending `_elem`. -/
theorem pyJoin_eq_foldl (l : List String) (x : String) :
    pyJoin "_" (x :: l) = l.foldl (fun acc b => acc ++ "_" ++ b) x := by
  induction l generalizing x with
  | nil => rfl
  | cons y t ih =>
    show x ++ "_" ++ pyJoin "_" (y :: t) = _
    rw [ih y, List.foldl_cons, foldl_underscore]

/-- C5: the log file name computed by `log_response` equals the spec's
formula (last URL path segment, each brand identifier found in the
request's `x-user-agent` appended with an underscore, every decimal digit
of the whole composed name replaced by `0`); and the modelled write places
the body at `<dir>/<name>` with overwrite semantics — afterwards exactly
one entry for that path exists and it holds the new content. -/
theorem log_file_name_matches_spec (url_path x_user_agent : String)
    (fs : FileSystem) (content : List Nat) (dir : String) :
    log_response_base_file_name url_path x_user_agent =
      spec_log_file_name url_path x_user_agent ∧
    (log_to_to_file fs content dir
        (log_response_base_file_name url_path x_user_agent)).filter
        (fun e => e.1 = dir ++ "/" ++ log_response_base_file_name url_path x_user_agent) =
      [(dir ++ "/" ++ log_response_base_file_name url_path x_user_agent, content)] := by
  constructor
  · unfold log_response_base_file_name spec_log_file_name
    rw [pyJoin_eq_foldl]
  · unfold log_to_to_file fsWrite
    rw [List.filter_append, List.filter_filter]
    have h0 : (fs.filter fun e =>
        decide (e.1 = dir ++ "/" ++ log_response_base_file_name url_path x_user_agent) &&
        decide (e.1 ≠ dir ++ "/" ++ log_response_base_file_name url_path x_user_agent)) = [] := by
      refine List.filter_eq_nil_iff.mpr fun a _ => ?_
      by_cases h : a.1 = dir ++ "/" ++ log_response_base_file_name url_path x_user_agent <;>
        simp [h]
    rw [h0]
    simp [List.filter]

/-- C6 counterexample: for a request whose URL ends in `/vehicles/VIN12345`
and whose `x-user-agent` contains `bmw`, the computed log file name is
`VIN00000_bmw` — the last path segment is `VIN12345` (digits zeroed), not
`vehicles` — so it is not `vehicles_bmw` as the claim states. -/
theorem vehicles_file_name_counterexample :
    log_response_base_file_name "/remote/vehicles/VIN12345" "android;bmw;9.9(row);row" =
      "VIN00000_bmw" ∧
    log_response_base_file_name "/remote/vehicles/VIN12345" "android;bmw;9.9(row);row" ≠
      "vehicles_bmw" := by
  constructor
  · rfl
  · decide

/-- C6 amended: for a request whose URL ends in `/vehicles/VIN12345` and
whose `x-user-agent` contains the brand identifier `bmw` (and no other
brand identifier), the written log file name is `VIN00000_bmw`. -/
theorem vehicles_file_name_amended (ua : String)
    (h1 : strContains ua "bmw" = true) (h2 : strContains ua "mini" = false) :
    log_response_base_file_name "/remote/vehicles/VIN12345" ua = "VIN00000_bmw" := by
  have hb : matched_brands ua = ["bmw"] := by
    simp [matched_brands, CarBrands.all, CarBrands.value, List.filter, h1, h2]
  unfold log_response_base_file_name
  rw [hb]
  decide

/-- Witness for C6's amended theorem at a concrete `x-user-agent`. -/
theorem vehicles_file_name_amended_witness :
    log_response_base_file_name "/remote/vehicles/VIN12345" "some bmw agent" =
      "VIN00000_bmw" :=
  vehicles_file_name_amended "some bmw agent" (by decide) (by decide)

/-- A file-writing primitive that always fails, standing for an `OSError`
raised by `log_to_to_file`. -/
def failWrite : List Nat → String → String → Except PyExc Unit :=
  fun _ _ _ => Except.error (PyExc.oserror "disk full")

/-- A configuration with response logging enabled. -/
def cfgLog : MyBMWClientConfiguration :=
  { authentication := ⟨⟨"row"⟩⟩, log_response_path := some "/tmp/bimmer" }

/-- A concrete response used for the logging-failure scenarios. -/
def respC8 : Response :=
  { status_code := 200
    request := { url_path := "/remote/vehicles/VIN12345"
                 headers := [("x-user-agent", "android;bmw;9.9(row);row")] }
    body := [1, 2, 3] }

/-- C8 counterexample: with logging enabled and a failing file-writing
step, running the hooks registered by construction does not return the
response: the exception escapes the logging hook (the code has no
`try/except`) and aborts the request. -/
theorem log_failure_aborts_counterexample :
    run_response_hooks failWrite cfgLog
        (MyBMWClient_init extW cfgLog none {}).response_hooks respC8 =
      Except.error (PyExc.oserror "disk full") ∧
    run_response_hooks failWrite cfgLog
        (MyBMWClient_init extW cfgLog none {}).response_hooks respC8 ≠
      Except.ok respC8 := by
  constructor
  · rfl
  · intro h
    rw [show run_response_hooks failWrite cfgLog
        (MyBMWClient_init extW cfgLog none {}).response_hooks respC8 =
        Except.error (PyExc.oserror "disk full") from rfl] at h
    exact Except.noConfusion h

/-- C8 amended: a failure of the file-writing step inside the logging hook
propagates: whenever the write fails, running the hook pipeline starting at
the logging hook yields that error, and the response is not returned. -/
theorem log_write_failure_propagates
    (write : List Nat → String → String → Except PyExc Unit)
    (config : MyBMWClientConfiguration) (r : Response)
    (rest : List ResponseHook) (e : PyExc)
    (h : write r.body (config.log_response_path.getD "")
        (log_response_base_file_name r.request.url_path
          ((pyDictGet r.request.headers "x-user-agent").getD "")) = Except.error e) :
    run_response_hooks write config (ResponseHook.log_response :: rest) r =
      Except.error e := by
  simp [run_response_hooks, run_hook, log_response, h]

/-- Witness for C8's amended theorem at a concrete failing writer. -/
theorem log_write_failure_propagates_witness :
    run_response_hooks failWrite cfgLog [ResponseHook.log_response] respC8 =
      Except.error (PyExc.oserror "disk full") :=
  log_write_failure_propagates failWrite cfgLog respC8 []
    (PyExc.oserror "disk full") rfl

end BimmerClient
